import Mathlib

/-!
Verification of AlgoDock's participation-key lifecycle and local account
registry, shallowly embedded from `src/check_node_metrics.py` and
`src/auto_key_renewal.py`.

The persisted local store is the JSON document
`{"default_account": "<address>", "accounts": {"<address>": {"name": "..."}}}`;
both keys may be absent, and an account entry's `"name"` field may be absent.
External effects (file system, the `goal` CLI, the algod status query) are made
explicit: file contents become a `FileState`, each external call's success or
failure becomes an `ExtResult` input, and the observable behavior (subprocess
actions, log events) becomes explicit output.
-/

namespace AlgoDock

/-- One value of the `accounts` map: a JSON object whose `"name"` field may be
absent (`set_account_name` first creates a bare `{}` entry). -/
structure AccountEntry where
  name : Option String
deriving DecidableEq, Repr

/-- The persisted local store document.  `defaultAccount = none` models an
absent `"default_account"` key; `accounts = none` models an absent
`"accounts"` key.  The accounts map is an association list with unique keys,
in insertion order (Python dict semantics). -/
structure Store where
  defaultAccount : Option String
  accounts : Option (List (String × AccountEntry))
deriving DecidableEq, Repr

/-- The empty document `{}`, as returned by a failed load. -/
def emptyStore : Store := ⟨none, none⟩

/-- Python `store["accounts"].get(addr)` over the association-list model. -/
def lookupAccount : List (String × AccountEntry) → String → Option AccountEntry
  | [], _ => none
  | (k, v) :: rest, a => if k = a then some v else lookupAccount rest a

/-- Python `addr in store["accounts"]`. -/
def containsKey (l : List (String × AccountEntry)) (a : String) : Bool :=
  (lookupAccount l a).isSome

/-- `set_default_account` (check_node_metrics.py, lines 103-111): sets the
`default_account` slot, materialises the `accounts` map if absent, and inserts
the address with an empty name if it is not yet present. -/
def set_default_account (full_address : String) (s : Store) : Store :=
  let accs := s.accounts.getD []
  let accs' :=
    if containsKey accs full_address then accs
    else accs ++ [(full_address, ⟨some ""⟩)]
  { defaultAccount := some full_address, accounts := some accs' }

/-- `get_default_account` (check_node_metrics.py, line 98-100):
`store.get("default_account")`. -/
def get_default_account (s : Store) : Option String :=
  s.defaultAccount

/-- Does `pat` occur at the head of `l`? (helper for the Python `in`
substring test). -/
def startsWithPat : List Char → List Char → Bool
  | _, [] => true
  | [], _ :: _ => false
  | c :: cs, d :: ds => c = d && startsWithPat cs ds

/-- Does `pat` occur anywhere in `l`? (the Python `pat in s` substring test). -/
def containsPat : List Char → List Char → Bool
  | [], pat => pat.isEmpty
  | c :: rest, pat => startsWithPat (c :: rest) pat || containsPat rest pat

/-- Python `"..." in s`: the truncation-marker check of
`merge_partkeys_and_show`. -/
def containsMarker (s : String) : Bool :=
  containsPat s.toList "...".toList

/-- The per-row default reconciliation of `merge_partkeys_and_show`
(check_node_metrics.py, lines 246-249): if the default account is set (truthy),
contains the `"..."` truncation marker, and differs from the row's full parent
address, upgrade it to the full address via `set_default_account`. -/
def reconcile_default (parent_addr : String) (s : Store) : Store :=
  match get_default_account s with
  | none => s
  | some default_acct =>
    if default_acct ≠ "" ∧ containsMarker default_acct = true ∧ default_acct ≠ parent_addr then
      set_default_account parent_addr s
    else s

/-- The validity-window computation of `renew_participation_key`
(auto_key_renewal.py, lines 187-188): `first_round = current_round + 1`,
`last_round = first_round + KEY_VALIDITY_DURATION`.  The source performs no
validation of either input. -/
def computeWindow (current_round : Int) (validity_duration : Int) : Int × Int :=
  let first_round := current_round + 1
  let last_round := first_round + validity_duration
  (first_round, last_round)

/-- Result type for the window computation as the specification words it. -/
inductive WindowResult
  | window (firstRound lastRound : Int)
  | invalidInput
deriving DecidableEq, Repr

/-- Modelled from the spec: `computeWindow` as §4.2 of the specification words
it, including the `InvalidInput` guard the spec requires for
`currentRound < 0` or `validityDuration ≤ 0`.  Stated only for comparison with
the source's `computeWindow`, which has no such guard. -/
def computeWindowChecked (current_round : Int) (validity_duration : Int) : WindowResult :=
  if current_round < 0 ∨ validity_duration ≤ 0 then WindowResult.invalidInput
  else WindowResult.window (current_round + 1) (current_round + 1 + validity_duration)

/-! ### File system model: load and save of the local store -/

/-- The possible states of the registry file `accounts.json` as the two load
implementations distinguish them: absent on disk, present but unreadable
(`open` raises), present but malformed JSON (`json.load` raises), or valid. -/
inductive FileState
  | absent
  | unreadable
  | malformed
  | valid (s : Store)
deriving DecidableEq, Repr

/-- Log events of `load_local_store` in check_node_metrics.py: any exception
during open/parse is logged via `logger.exception`. -/
inductive MetricsLoadLog
  | exceptionLogged
deriving DecidableEq, Repr

/-- `load_local_store` (check_node_metrics.py, lines 65-83): an absent file
returns `{}` silently; any exception while opening or parsing is caught,
logged, and `{}` is returned.  The function never raises. -/
def load_local_store_metrics : FileState → Store × List MetricsLoadLog
  | FileState.absent => (emptyStore, [])
  | FileState.unreadable => (emptyStore, [MetricsLoadLog.exceptionLogged])
  | FileState.malformed => (emptyStore, [MetricsLoadLog.exceptionLogged])
  | FileState.valid s => (s, [])

/-- Log events of `load_local_store` in auto_key_renewal.py: an absent file
logs a file-not-found error, a parse failure logs a parse error, any other
exception logs an unexpected error. -/
inductive RenewalLoadLog
  | fileNotFound
  | parseFailed
  | unexpectedError
deriving DecidableEq, Repr

/-- `load_local_store` (auto_key_renewal.py, lines 76-96): every failure path
is caught, logged with its own message, and returns `{}`.  The function never
raises. -/
def load_local_store_renewal : FileState → Store × List RenewalLoadLog
  | FileState.absent => (emptyStore, [RenewalLoadLog.fileNotFound])
  | FileState.unreadable => (emptyStore, [RenewalLoadLog.unexpectedError])
  | FileState.malformed => (emptyStore, [RenewalLoadLog.parseFailed])
  | FileState.valid s => (s, [])

/-- File-system operations performed on the store path by `save_local_store`.
`openTruncate` is Python's `open(path, "w")`, which truncates the target file
in place; `renameFile` (a temp-then-rename step) is listed only so its absence
from the save trace can be stated — the source never performs it. -/
inductive FileOp
  | openTruncate
  | writeData (s : Store)
  | renameFile
deriving DecidableEq, Repr

/-- Whether the I/O performed during a save succeeds or raises. -/
inductive SaveIOOutcome
  | ok
  | fail
deriving DecidableEq, Repr

/-- Log events of `save_local_store`. -/
inductive SaveLog
  | saveExceptionLogged
deriving DecidableEq, Repr

/-- What one call to `save_local_store` produces: what the caller sees
(`result`), the file operations performed on the store path, and the log. -/
structure SaveRun where
  result : Except String Unit
  ops : List FileOp
  logs : List SaveLog
deriving Repr

/-- `save_local_store` (check_node_metrics.py, lines 86-95): opens the store
path with mode `"w"` (truncating it in place) and dumps the JSON into it; any
exception is caught and logged, and the function returns normally.  If the
dump raises after the open, the target file has already been truncated. -/
def save_local_store (data : Store) (io : SaveIOOutcome) : SaveRun :=
  match io with
  | SaveIOOutcome.ok =>
    { result := Except.ok (), ops := [FileOp.openTruncate, FileOp.writeData data], logs := [] }
  | SaveIOOutcome.fail =>
    { result := Except.ok (), ops := [FileOp.openTruncate],
      logs := [SaveLog.saveExceptionLogged] }

/-! ### The renewal pipeline (auto_key_renewal.py) -/

/-- Success or failure of one external `goal` CLI invocation. -/
inductive ExtResult
  | ok
  | fail
deriving DecidableEq, Repr

/-- `get_default_account` (auto_key_renewal.py, lines 98-111): loads the store
and returns `store.get("default_account")`; a missing or empty value raises a
`ValueError` that is caught, logged as a warning, and turned into `""`. -/
def get_default_account_renewal (fs : FileState) : String :=
  let store := (load_local_store_renewal fs).1
  match store.defaultAccount with
  | none => ""
  | some a => if a = "" then "" else a

/-- External actions performed by one renewal attempt: the algod status query
and the two `goal` subprocess invocations. -/
inductive Action
  | statusQuery
  | clearPartKey (addr : String)
  | addPartKey (addr : String) (firstRound lastRound : Int)
deriving DecidableEq, Repr

/-- Log events emitted on the renewal path. -/
inductive RenewLog
  | noDefaultAccount
  | currentRoundInfo (r : Int)
  | renewingInfo (firstRound lastRound : Int)
  | clearSucceeded (addr : String)
  | clearFailed (addr : String)
  | createSucceeded (firstRound lastRound : Int)
  | createFailed (addr : String)
deriving DecidableEq, Repr

/-- `clear_old_participation_keys` (auto_key_renewal.py, lines 156-170): runs
`goal account clearpartkey`; success logs at info level, failure is caught and
logged at warning level.  The function never raises. -/
def clear_old_participation_keys (addr : String) (r : ExtResult) :
    List Action × List RenewLog :=
  ([Action.clearPartKey addr],
   match r with
   | ExtResult.ok => [RenewLog.clearSucceeded addr]
   | ExtResult.fail => [RenewLog.clearFailed addr])

/-- `generate_participation_key` (auto_key_renewal.py, lines 138-154): runs
`goal account addpartkey`; success logs at info level, failure is caught and
logged at error level.  The function never raises. -/
def generate_participation_key (addr : String) (firstRound lastRound : Int)
    (r : ExtResult) : List Action × List RenewLog :=
  ([Action.addPartKey addr firstRound lastRound],
   match r with
   | ExtResult.ok => [RenewLog.createSucceeded firstRound lastRound]
   | ExtResult.fail => [RenewLog.createFailed addr])

/-- The environment one renewal attempt runs against: the registry file, the
node's reported `last-round` (absent keys default to 0 via
`status.get("last-round", 0)`), the configured validity duration, and the
outcomes of the two external `goal` calls. -/
structure RenewEnv where
  storeFile : FileState
  lastRound : Option Int
  validityDuration : Int
  clearResult : ExtResult
  createResult : ExtResult
deriving DecidableEq, Repr

/-- `renew_participation_key` (auto_key_renewal.py, lines 172-198): loads the
default account; if it is empty, logs and returns with no external action.
Otherwise queries the node status, computes the validity window, clears old
keys (failure tolerated), and generates the new key.  The output is the list
of external actions performed and the log trace. -/
def renew_participation_key (env : RenewEnv) : List Action × List RenewLog :=
  let account_address := get_default_account_renewal env.storeFile
  if account_address = "" then
    ([], [RenewLog.noDefaultAccount])
  else
    let current_round := env.lastRound.getD 0
    let w := computeWindow current_round env.validityDuration
    let clr := clear_old_participation_keys account_address env.clearResult
    let gen := generate_participation_key account_address w.1 w.2 env.createResult
    (Action.statusQuery :: (clr.1 ++ gen.1),
     RenewLog.currentRoundInfo current_round :: RenewLog.renewingInfo w.1 w.2 ::
       (clr.2 ++ gen.2))

/-- The failure the spec's taxonomy assigns to a fatal renewal attempt. -/
inductive RenewError
  | externalCreateFailed
deriving DecidableEq, Repr

/-- The spec's `RenewalOutcome` for one attempt, minus the window. -/
structure RenewalOutcome where
  success : Bool
  clearedOldKey : Bool
  error : Option RenewError
deriving DecidableEq, Repr

/-- The outcome of a renewal attempt as observable from its log trace: the
attempt failed iff a fatal create-failure was recorded (the `logger.error` in
`generate_participation_key`), and the old key counts as cleared iff the clear
step logged success. -/
def outcomeOfLogs (logs : List RenewLog) : RenewalOutcome :=
  let createFail := logs.any fun l =>
    match l with | RenewLog.createFailed _ => true | _ => false
  let cleared := logs.any fun l =>
    match l with | RenewLog.clearSucceeded _ => true | _ => false
  { success := !createFail,
    clearedOldKey := cleared,
    error := if createFail then some RenewError.externalCreateFailed else none }

/-! ### The scheduler loop (auto_key_renewal.py `__main__`) -/

/-- A raised Python error as the loop's `except Exception` classifies it:
ordinary `Exception` subclasses are caught; `SystemExit`, the error raised by
`exit(1)`, subclasses `BaseException` only, so the handler does not catch
it. -/
inductive PyError
  | exception
  | systemExit
deriving DecidableEq, Repr

/-- How one invocation of `renew_participation_key` can end, seen from the
loop: it returns normally; or it raises an ordinary `Exception`; or it
executes `exit(1)` — auto_key_renewal.py lines 56 and 60 (algod token
missing, reached through `get_algod_client` at the top of every attempt),
line 74 (client initialization failure), and line 129 (`goal` binary missing
in `run_goal_command`) — which raises `SystemExit`. -/
inductive IterOutcome
  | completes
  | raisesException
  | raisesSystemExit
deriving DecidableEq, Repr

/-- One invocation of the renewal function as the loop's `try` sees it. -/
def scheduler_body : IterOutcome → Except PyError Unit
  | IterOutcome.completes => Except.ok ()
  | IterOutcome.raisesException => Except.error PyError.exception
  | IterOutcome.raisesSystemExit => Except.error PyError.systemExit

/-- The scheduler's running state: how many times `renew_participation_key`
has been invoked, how many raised errors were caught and logged, and whether
the loop has exited. -/
structure SchedState where
  invocations : Nat
  caughtErrors : Nat
  terminated : Bool
deriving DecidableEq, Repr

/-- One iteration of the `while True` loop (auto_key_renewal.py, lines
206-214): invoke the renewal function once; the `except Exception` catches and
logs an ordinary error and the loop continues; a `SystemExit` raised by
`exit(1)` escapes the handler and terminates the loop (and the process).  The
body contains no `break` or `return`. -/
def scheduler_step (o : IterOutcome) (s : SchedState) : SchedState :=
  if s.terminated then s
  else
    match scheduler_body o with
    | Except.ok _ =>
      { invocations := s.invocations + 1, caughtErrors := s.caughtErrors,
        terminated := false }
    | Except.error PyError.exception =>
      { invocations := s.invocations + 1, caughtErrors := s.caughtErrors + 1,
        terminated := false }
    | Except.error PyError.systemExit =>
      { invocations := s.invocations + 1, caughtErrors := s.caughtErrors,
        terminated := true }

/-- The loop state after `n` iterations, where `outcomes i` tells how the
renewal function ends on iteration `i`. -/
def scheduler_run (outcomes : Nat → IterOutcome) : Nat → SchedState
  | 0 => ⟨0, 0, false⟩
  | n + 1 => scheduler_step (outcomes n) (scheduler_run outcomes n)

/-- The spec's scheduler scenario: the renewal function raises an ordinary
`Exception` on iterations 1 and 3 and succeeds on 2 and 4 (0-indexed: raises
on 0 and 2). -/
def exampleOutcomes : Nat → IterOutcome :=
  fun i =>
    if i = 0 ∨ i = 2 then IterOutcome.raisesException else IterOutcome.completes

/-- A store whose default is a truncated address, for exercising the
reconciliation path. -/
def truncStore : Store :=
  ⟨some "ABCD...WXYZ", some [("ABCD...WXYZ", ⟨some ""⟩)]⟩

/-- A store with a configured full default address. -/
def addr1Store : Store :=
  ⟨some "ADDR1", some [("ADDR1", ⟨some ""⟩)]⟩

/-! ## Shared lemmas -/

/-- Looking up the key just appended to an association list finds the old
binding if one existed and the appended one otherwise. -/
theorem lookupAccount_append_self (l : List (String × AccountEntry)) (a : String)
    (e : AccountEntry) :
    lookupAccount (l ++ [(a, e)]) a = some ((lookupAccount l a).getD e) := by
  induction l with
  | nil => simp [lookupAccount]
  | cons hd tl ih =>
    obtain ⟨k, v⟩ := hd
    by_cases hk : k = a <;> simp [lookupAccount, hk, ih]

/-! ## Claim theorems -/

/-- C1: for every `currentRound ≥ 0` and `validityDuration > 0`, the renewal's
validity window satisfies `firstRound = currentRound + 1` and
`lastRound = firstRound + validityDuration`; in particular
`currentRound = 5000000` with `validityDuration = 1000000` yields the window
`{firstRound: 5000001, lastRound: 6000001}`. -/
theorem computeWindow_correct (c d : Int) (hc : 0 ≤ c) (hd : 0 < d) :
    (computeWindow c d).1 = c + 1 ∧
    (computeWindow c d).2 = (computeWindow c d).1 + d ∧
    computeWindow 5000000 1000000 = (5000001, 6000001) :=
  ⟨rfl, rfl, rfl⟩

/-- Witness for C1 at `currentRound = 5000000`, `validityDuration = 1000000`. -/
theorem computeWindow_correct_witness :
    (computeWindow 5000000 1000000).1 = 5000000 + 1 ∧
    (computeWindow 5000000 1000000).2 = (computeWindow 5000000 1000000).1 + 1000000 ∧
    computeWindow 5000000 1000000 = (5000001, 6000001) :=
  computeWindow_correct 5000000 1000000 (by decide) (by decide)

/-- C4, counterexample: at `currentRound = -1`, `validityDuration = 0` the
source's window computation returns the window `(0, 0)` — it does not fail —
while the computation as the spec words it returns `InvalidInput` there. -/
theorem computeWindow_no_validation_counterexample :
    computeWindow (-1) 0 = (0, 0) ∧
    computeWindowChecked (-1) 0 = WindowResult.invalidInput := by
  exact ⟨rfl, by decide⟩

/-- C4, amended: for every input with `currentRound < 0` or
`validityDuration ≤ 0`, the window computation does not fail: the source has
no `InvalidInput` guard and still returns `firstRound = currentRound + 1`,
`lastRound = firstRound + validityDuration`. -/
theorem computeWindow_invalid_inputs_still_window (c d : Int)
    (h : c < 0 ∨ d ≤ 0) :
    computeWindow c d = (c + 1, c + 1 + d) :=
  rfl

/-- Witness for the amended C4 at `currentRound = -1`, `validityDuration = 0`. -/
theorem computeWindow_invalid_inputs_still_window_witness :
    computeWindow (-1) 0 = (-1 + 1, -1 + 1 + 0) :=
  computeWindow_invalid_inputs_still_window (-1) 0 (Or.inl (by decide))

/-- C5: for every persisted-state condition in which the registry file is
absent, unreadable, or malformed, both load implementations return the empty
registry (and, being total functions here, never raise); absent and malformed
content yield the same returned value and are distinguished only in the logs. -/
theorem load_fails_soft (fs : FileState)
    (h : fs = FileState.absent ∨ fs = FileState.unreadable ∨ fs = FileState.malformed) :
    (load_local_store_metrics fs).1 = emptyStore ∧
    (load_local_store_renewal fs).1 = emptyStore ∧
    (load_local_store_metrics FileState.absent).1 =
      (load_local_store_metrics FileState.malformed).1 ∧
    (load_local_store_metrics FileState.absent).2 ≠
      (load_local_store_metrics FileState.malformed).2 ∧
    (load_local_store_renewal FileState.absent).1 =
      (load_local_store_renewal FileState.malformed).1 ∧
    (load_local_store_renewal FileState.absent).2 ≠
      (load_local_store_renewal FileState.malformed).2 := by
  rcases h with h | h | h <;> subst h <;>
    exact ⟨rfl, rfl, rfl, by decide, rfl, by decide⟩

/-- Witness for C5 on an absent registry file. -/
theorem load_fails_soft_witness :
    (load_local_store_metrics FileState.absent).1 = emptyStore ∧
    (load_local_store_renewal FileState.absent).1 = emptyStore ∧
    (load_local_store_metrics FileState.absent).1 =
      (load_local_store_metrics FileState.malformed).1 ∧
    (load_local_store_metrics FileState.absent).2 ≠
      (load_local_store_metrics FileState.malformed).2 ∧
    (load_local_store_renewal FileState.absent).1 =
      (load_local_store_renewal FileState.malformed).1 ∧
    (load_local_store_renewal FileState.absent).2 ≠
      (load_local_store_renewal FileState.malformed).2 :=
  load_fails_soft FileState.absent (Or.inl rfl)

/-- C6, counterexample: a failing save is swallowed — the caller still sees a
normal return — and even a successful save performs no temp-file rename, so
the write is not the atomic temp-then-rename the claim requires. -/
theorem save_swallows_failure_counterexample :
    (save_local_store emptyStore SaveIOOutcome.fail).result = Except.ok () ∧
    FileOp.renameFile ∉ (save_local_store emptyStore SaveIOOutcome.ok).ops := by
  exact ⟨rfl, by decide⟩

/-- C6, amended: save writes the registry file in place (open-truncate then
write, with no temp-then-rename step, so a truncated partial state is
observable when the dump fails) and every I/O failure during save is caught
and logged, with save returning normally to the caller instead of
propagating. -/
theorem save_inplace_and_swallows (d : Store) (io : SaveIOOutcome) :
    (save_local_store d io).result = Except.ok () ∧
    FileOp.renameFile ∉ (save_local_store d io).ops ∧
    (io = SaveIOOutcome.fail →
      (save_local_store d io).ops = [FileOp.openTruncate] ∧
      (save_local_store d io).logs = [SaveLog.saveExceptionLogged]) ∧
    (io = SaveIOOutcome.ok →
      (save_local_store d io).ops = [FileOp.openTruncate, FileOp.writeData d]) := by
  cases io <;> simp [save_local_store]

/-- Witness for the amended C6 on a failing save of the empty registry. -/
theorem save_inplace_and_swallows_witness :
    (save_local_store emptyStore SaveIOOutcome.fail).ops = [FileOp.openTruncate] ∧
    (save_local_store emptyStore SaveIOOutcome.fail).logs = [SaveLog.saveExceptionLogged] :=
  (save_inplace_and_swallows emptyStore SaveIOOutcome.fail).2.2.1 rfl

/-- C9, counterexample: a renewal attempt can fail by executing `exit(1)`
(missing algod token at auto_key_renewal.py lines 56/60, client
initialization failure at line 74, or missing `goal` binary at line 129); the
raised `SystemExit` escapes the loop's `except Exception`, so with every
attempt failing that way the loop has terminated after the first iteration,
and after 4 iterations the renewal function has been invoked once, not 4
times. -/
theorem scheduler_systemexit_terminates_counterexample :
    (scheduler_run (fun _ => IterOutcome.raisesSystemExit) 1).terminated = true ∧
    (scheduler_run (fun _ => IterOutcome.raisesSystemExit) 4).invocations = 1 := by
  exact ⟨rfl, rfl⟩

/-- C9, amended: for every sequence of renewal outcomes in which no attempt
reaches an `exit(1)` call (every failure is an ordinary `Exception`), the
scheduler loop never terminates: each iteration invokes the renewal function
exactly once, each raised error is caught and logged without propagating, and
after `n` iterations the renewal function has been invoked exactly `n` times.
An attempt whose failure is `exit(1)` — missing algod token, failed client
initialization, or missing `goal` CLI — raises `SystemExit`, which escapes
every `except Exception` and terminates the loop and the process. -/
theorem scheduler_no_exit_never_terminates (outcomes : Nat → IterOutcome)
    (n : Nat) (h : ∀ i, i < n → outcomes i ≠ IterOutcome.raisesSystemExit) :
    (scheduler_run outcomes n).terminated = false ∧
    (scheduler_run outcomes n).invocations = n ∧
    (scheduler_run outcomes n).caughtErrors =
      ((List.range n).filter
        (fun i => decide (outcomes i = IterOutcome.raisesException))).length := by
  induction n with
  | zero => exact ⟨rfl, rfl, rfl⟩
  | succ n ih =>
    have h' : ∀ i, i < n → outcomes i ≠ IterOutcome.raisesSystemExit :=
      fun i hi => h i (Nat.lt_succ_of_lt hi)
    obtain ⟨ht, hi, hc⟩ := ih h'
    have hn := h n (Nat.lt_succ_self n)
    cases ho : outcomes n with
    | completes =>
      simp [scheduler_run, scheduler_step, scheduler_body, ht, hi, hc,
        List.range_succ, ho]
    | raisesException =>
      simp [scheduler_run, scheduler_step, scheduler_body, ht, hi, hc,
        List.range_succ, ho]
    | raisesSystemExit => exact absurd ho hn

/-- Witness for the amended C9: the spec scenario (ordinary raises on
iterations 1 and 3, successes on 2 and 4) runs 4 iterations without
terminating, invoking the renewal function 4 times and catching 2 errors. -/
theorem scheduler_no_exit_never_terminates_witness :
    (scheduler_run exampleOutcomes 4).terminated = false ∧
    (scheduler_run exampleOutcomes 4).invocations = 4 ∧
    (scheduler_run exampleOutcomes 4).caughtErrors = 2 := by
  obtain ⟨h1, h2, h3⟩ :=
    scheduler_no_exit_never_terminates exampleOutcomes 4 (by decide)
  refine ⟨h1, h2, ?_⟩
  rw [h3]
  decide

/-- C7: for every address and registry state, calling `set_default_account`
twice in a row leaves the registry in the same state as calling it once; if
the address is not yet present in the account map it is inserted with an empty
display name. -/
theorem set_default_account_idempotent (addr : String) (s : Store) :
    set_default_account addr (set_default_account addr s) =
      set_default_account addr s ∧
    (containsKey (s.accounts.getD []) addr = false →
      lookupAccount ((set_default_account addr s).accounts.getD []) addr =
        some ⟨some ""⟩) := by
  constructor
  · cases h : lookupAccount (s.accounts.getD []) addr with
    | some v => simp [set_default_account, containsKey, h]
    | none => simp [set_default_account, containsKey, h, lookupAccount_append_self]
  · intro h
    have hl : lookupAccount (s.accounts.getD []) addr = none := by
      cases hl : lookupAccount (s.accounts.getD []) addr with
      | none => rfl
      | some v => rw [containsKey, hl] at h; cases h
    simp [set_default_account, containsKey, hl, lookupAccount_append_self]

/-- Witness for C7 at address `"ADDR1"` over the empty registry. -/
theorem set_default_account_idempotent_witness :
    set_default_account "ADDR1" (set_default_account "ADDR1" emptyStore) =
      set_default_account "ADDR1" emptyStore ∧
    lookupAccount ((set_default_account "ADDR1" emptyStore).accounts.getD [])
      "ADDR1" = some ⟨some ""⟩ :=
  ⟨(set_default_account_idempotent "ADDR1" emptyStore).1,
   (set_default_account_idempotent "ADDR1" emptyStore).2 rfl⟩

/-- C8: for every registry state and candidate full address, the per-row
reconciliation replaces the default with the candidate exactly when the
current default is set (truthy), contains the `"..."` truncation marker, and
differs from the candidate; otherwise — in particular whenever the default
carries no truncation marker — the registry is left unchanged. -/
theorem reconcile_default_exact (s : Store) (c : String) :
    ((∃ da, get_default_account s = some da ∧ da ≠ "" ∧
        containsMarker da = true ∧ da ≠ c) →
      reconcile_default c s = set_default_account c s ∧
      (reconcile_default c s).defaultAccount = some c) ∧
    (∀ da, get_default_account s = some da →
      (da = "" ∨ containsMarker da = false ∨ da = c) →
      reconcile_default c s = s) ∧
    (get_default_account s = none → reconcile_default c s = s) := by
  cases hs : s.defaultAccount with
  | none =>
    refine ⟨?_, ?_, ?_⟩
    · rintro ⟨da, hda, -, -, -⟩
      rw [get_default_account, hs] at hda
      cases hda
    · intro da hda _
      rw [get_default_account, hs] at hda
      cases hda
    · intro _
      simp [reconcile_default, get_default_account, hs]
  | some da0 =>
    refine ⟨?_, ?_, ?_⟩
    · rintro ⟨da, hda, h1, h2, h3⟩
      rw [get_default_account, hs] at hda
      injection hda with hda'
      subst hda'
      have hrec : reconcile_default c s = set_default_account c s := by
        simp [reconcile_default, get_default_account, hs, h1, h2, h3]
      exact ⟨hrec, by rw [hrec]; rfl⟩
    · intro da hda hcond
      rw [get_default_account, hs] at hda
      injection hda with hda'
      subst hda'
      have hneg : ¬(da0 ≠ "" ∧ containsMarker da0 = true ∧ da0 ≠ c) := by
        rintro ⟨k1, k2, k3⟩
        rcases hcond with h | h | h
        · exact k1 h
        · rw [k2] at h; cases h
        · exact k3 h
      simp [reconcile_default, get_default_account, hs, hneg]
    · intro h
      rw [get_default_account, hs] at h
      cases h

/-- Witness for C8: the truncated default `"ABCD...WXYZ"` is replaced by the
candidate full address `"ABCDEFGHWXYZ"`. -/
theorem reconcile_default_exact_witness :
    reconcile_default "ABCDEFGHWXYZ" truncStore =
      set_default_account "ABCDEFGHWXYZ" truncStore ∧
    (reconcile_default "ABCDEFGHWXYZ" truncStore).defaultAccount =
      some "ABCDEFGHWXYZ" :=
  (reconcile_default_exact truncStore "ABCDEFGHWXYZ").1
    ⟨"ABCD...WXYZ", rfl, by decide, by decide, by decide⟩

/-- C2: for every renewal attempt with a configured default account in which
the create-key call fails — whatever the clear step's outcome — the attempt's
observable outcome has `success = false` carrying the `ExternalCreateFailed`
error, and the create call is the final external action of the attempt (no
further action is taken). -/
theorem renew_create_failure_fatal (env : RenewEnv)
    (hacct : get_default_account_renewal env.storeFile ≠ "")
    (hcreate : env.createResult = ExtResult.fail) :
    (outcomeOfLogs (renew_participation_key env).2).success = false ∧
    (outcomeOfLogs (renew_participation_key env).2).error =
      some RenewError.externalCreateFailed ∧
    (renew_participation_key env).1 =
      [Action.statusQuery,
       Action.clearPartKey (get_default_account_renewal env.storeFile),
       Action.addPartKey (get_default_account_renewal env.storeFile)
         (env.lastRound.getD 0 + 1)
         (env.lastRound.getD 0 + 1 + env.validityDuration)] := by
  obtain ⟨fs, lr, vd, cr, xr⟩ := env
  subst hcreate
  cases cr <;>
    simp_all [renew_participation_key, clear_old_participation_keys,
      generate_participation_key, outcomeOfLogs, computeWindow]

/-- Witness for C2: default `"ADDR1"`, round 5000000, duration 1000000, clear
succeeds, create fails. -/
theorem renew_create_failure_fatal_witness :
    (outcomeOfLogs (renew_participation_key
      ⟨FileState.valid addr1Store, some 5000000, 1000000,
        ExtResult.ok, ExtResult.fail⟩).2).success = false ∧
    (outcomeOfLogs (renew_participation_key
      ⟨FileState.valid addr1Store, some 5000000, 1000000,
        ExtResult.ok, ExtResult.fail⟩).2).error =
      some RenewError.externalCreateFailed ∧
    (renew_participation_key
      ⟨FileState.valid addr1Store, some 5000000, 1000000,
        ExtResult.ok, ExtResult.fail⟩).1 =
      [Action.statusQuery, Action.clearPartKey "ADDR1",
       Action.addPartKey "ADDR1" 5000001 6000001] :=
  renew_create_failure_fatal
    ⟨FileState.valid addr1Store, some 5000000, 1000000,
      ExtResult.ok, ExtResult.fail⟩ (by decide) rfl

/-- C3: for every renewal attempt with a configured default account in which
the clear-old-key call fails, the failure is recorded (as a warning log) but
not fatal: the pipeline still invokes the create-key call, and if that call
succeeds the attempt's outcome is `success = true` with
`clearedOldKey = false` and no error. -/
theorem renew_clear_failure_nonfatal (env : RenewEnv)
    (hacct : get_default_account_renewal env.storeFile ≠ "")
    (hclear : env.clearResult = ExtResult.fail)
    (hcreate : env.createResult = ExtResult.ok) :
    Action.addPartKey (get_default_account_renewal env.storeFile)
        (env.lastRound.getD 0 + 1)
        (env.lastRound.getD 0 + 1 + env.validityDuration) ∈
      (renew_participation_key env).1 ∧
    RenewLog.clearFailed (get_default_account_renewal env.storeFile) ∈
      (renew_participation_key env).2 ∧
    outcomeOfLogs (renew_participation_key env).2 =
      { success := true, clearedOldKey := false, error := none } := by
  obtain ⟨fs, lr, vd, cr, xr⟩ := env
  subst hclear
  subst hcreate
  simp_all [renew_participation_key, clear_old_participation_keys,
    generate_participation_key, outcomeOfLogs, computeWindow]

/-- Witness for C3: default `"ADDR1"`, round 5000000, duration 1000000, clear
fails, create succeeds. -/
theorem renew_clear_failure_nonfatal_witness :
    Action.addPartKey "ADDR1" 5000001 6000001 ∈
      (renew_participation_key
        ⟨FileState.valid addr1Store, some 5000000, 1000000,
          ExtResult.fail, ExtResult.ok⟩).1 ∧
    RenewLog.clearFailed "ADDR1" ∈
      (renew_participation_key
        ⟨FileState.valid addr1Store, some 5000000, 1000000,
          ExtResult.fail, ExtResult.ok⟩).2 ∧
    outcomeOfLogs (renew_participation_key
        ⟨FileState.valid addr1Store, some 5000000, 1000000,
          ExtResult.fail, ExtResult.ok⟩).2 =
      { success := true, clearedOldKey := false, error := none } :=
  renew_clear_failure_nonfatal
    ⟨FileState.valid addr1Store, some 5000000, 1000000,
      ExtResult.fail, ExtResult.ok⟩ (by decide) rfl rfl

/-- C10: for every registry state whose default slot is absent or empty, a
renewal attempt performs no external action at all — in particular neither the
clear-key nor the create-key call — and only logs that no default account is
available; it returns normally, and since the attempt performs no action there
is no store write, so the registry is unchanged. -/
theorem renew_no_default_no_action (env : RenewEnv) (s : Store)
    (hfs : env.storeFile = FileState.valid s)
    (hdef : s.defaultAccount = none ∨ s.defaultAccount = some "") :
    renew_participation_key env = ([], [RenewLog.noDefaultAccount]) := by
  obtain ⟨fs, lr, vd, cr, xr⟩ := env
  cases hfs
  have hacct : get_default_account_renewal (FileState.valid s) = "" := by
    rcases hdef with h | h <;>
      simp [get_default_account_renewal, load_local_store_renewal, h]
  simp [renew_participation_key, hacct]

/-- Witness for C10 on a registry with no default slot. -/
theorem renew_no_default_no_action_witness :
    renew_participation_key
      ⟨FileState.valid ⟨none, some [("ADDR1", ⟨some ""⟩)]⟩, some 5000000,
        1000000, ExtResult.ok, ExtResult.ok⟩ =
      ([], [RenewLog.noDefaultAccount]) :=
  renew_no_default_no_action
    ⟨FileState.valid ⟨none, some [("ADDR1", ⟨some ""⟩)]⟩, some 5000000,
      1000000, ExtResult.ok, ExtResult.ok⟩
    ⟨none, some [("ADDR1", ⟨some ""⟩)]⟩ rfl (Or.inl rfl)

end AlgoDock
